import Mathlib

/-!
Verification of the data-access and query layer of the local food-waste
management dashboard (`src/app.py`).

The embedding models the SQLite tables reached through the two gateway
helpers `run_query` and `run_action` as Lean lists of rows, and each SQL
statement issued by the application as a function on those lists, following
SQL semantics (in particular the three-valued treatment of NULL in `WHERE`
comparisons).

A point that matters throughout: the `food_listings` table is created by
`pandas.DataFrame.to_sql` (app.py line 38), which emits a plain
`CREATE TABLE` with one typed column per CSV column and **no** PRIMARY KEY,
UNIQUE, DEFAULT or AUTOINCREMENT clause.  Consequently `Food_ID` is an
ordinary nullable column: an `INSERT` that does not mention it (app.py
lines 138-141) stores SQL NULL in it, and `Food_ID = ?` never matches such
a row.  The embedding therefore gives each stored row an `Option Int`
identifier, with `none` playing the role of NULL.
-/

namespace FoodWaste

/-- A row of the `food_listings` table.  `Food_ID` is nullable (see the
module comment); the eight remaining attributes are the ones the Add and
Update forms collect (app.py lines 128-135). -/
structure FoodListing where
  foodId : Option Int
  foodName : String
  quantity : Int
  expiryDate : String
  providerId : Int
  providerType : String
  location : String
  foodType : String
  mealType : String
deriving Repr, DecidableEq

/-- The eight attribute values the caller supplies to the Add and Update
flows: every `FoodListing` column except `Food_ID`. -/
structure ListingInput where
  foodName : String
  quantity : Int
  expiryDate : String
  providerId : Int
  providerType : String
  location : String
  foodType : String
  mealType : String
deriving Repr, DecidableEq

/-- SQL comparison `Food_ID = ?` with an integer parameter bound for `?`:
comparison against NULL is not true in SQL, so a row whose `Food_ID` is
NULL is never selected by the `WHERE` clauses at app.py lines 152, 168
and 180. -/
def sqlIdMatches (rowId : Option Int) (fid : Int) : Bool :=
  match rowId with
  | some x => x = fid
  | none => false

/-- Add Listing flow, app.py lines 138-141:
`INSERT INTO food_listings (Food_Name, Quantity, Expiry_Date, Provider_ID,
Provider_Type, Location, Food_Type, Meal_Type) VALUES (?,?,?,?,?,?,?,?)`.
The statement names only the eight caller-supplied columns, and the table
carries no default or key clause for `Food_ID` (app.py line 38), so SQLite
stores NULL there: the appended row has `foodId = none`. -/
def addListing (t : List FoodListing) (v : ListingInput) : List FoodListing :=
  t ++ [{ foodId := none
          foodName := v.foodName
          quantity := v.quantity
          expiryDate := v.expiryDate
          providerId := v.providerId
          providerType := v.providerType
          location := v.location
          foodType := v.foodType
          mealType := v.mealType }]

/-- Read-for-edit, app.py line 152:
`SELECT * FROM food_listings WHERE Food_ID = ?`. -/
def selectById (t : List FoodListing) (fid : Int) : List FoodListing :=
  t.filter (fun r => sqlIdMatches r.foodId fid)

/-- The effect of the `SET` clause of the Update statement on one matching
row: all eight listed columns are overwritten, `Food_ID` is not listed and
keeps its value. -/
def applyUpdate (v : ListingInput) (r : FoodListing) : FoodListing :=
  { foodId := r.foodId
    foodName := v.foodName
    quantity := v.quantity
    expiryDate := v.expiryDate
    providerId := v.providerId
    providerType := v.providerType
    location := v.location
    foodType := v.foodType
    mealType := v.mealType }

/-- Update Listing flow, app.py lines 165-169:
`UPDATE food_listings SET Food_Name=?, Quantity=?, Expiry_Date=?,
Provider_ID=?, Provider_Type=?, Location=?, Food_Type=?, Meal_Type=?
WHERE Food_ID=?`. -/
def updateListing (t : List FoodListing) (fid : Int) (v : ListingInput) :
    List FoodListing :=
  t.map (fun r => if sqlIdMatches r.foodId fid then applyUpdate v r else r)

/-- Delete Listing flow, app.py line 180:
`DELETE FROM food_listings WHERE Food_ID=?`. -/
def deleteListing (t : List FoodListing) (fid : Int) : List FoodListing :=
  t.filter (fun r => !(sqlIdMatches r.foodId fid))

/-- Outcome of executing a statement against the store: either a value or a
raised database error (sqlite3 or pandas exception). -/
inductive DbResult (α : Type) where
  | ok : α → DbResult α
  | err : String → DbResult α
deriving Repr, DecidableEq

/-- What a gateway call leaves behind: the value returned (or the error
propagated to the caller) and whether the connection opened at the start of
the call was closed by the time control left the function. -/
structure CallOutcome (α : Type) where
  result : DbResult α
  connClosed : Bool
deriving Repr, DecidableEq

/-- Gateway read, app.py lines 50-54.  The body is straight-line Python:
`conn = get_connection()`, `df = pd.read_sql_query(query, conn, params)`,
`conn.close()`, `return df` — with no try/finally or context manager.  If
the executed read raises, the exception propagates immediately and the
`conn.close()` line never runs; on the normal path the close runs before
the return.  `exec` is the outcome of the read itself. -/
def run_query (exec : DbResult (List FoodListing)) :
    CallOutcome (List FoodListing) :=
  match exec with
  | DbResult.ok df => { result := DbResult.ok df, connClosed := true }
  | DbResult.err e => { result := DbResult.err e, connClosed := false }

/-- Gateway write, app.py lines 56-60: `conn = get_connection()`,
`conn.execute(query, params)`, `conn.commit()`, `conn.close()` — again with
no try/finally.  If `conn.execute` raises, neither the commit nor the close
runs. -/
def run_action (exec : DbResult Unit) : CallOutcome Unit :=
  match exec with
  | DbResult.ok u => { result := DbResult.ok u, connClosed := true }
  | DbResult.err e => { result := DbResult.err e, connClosed := false }

/-- The Rice listing used as the worked example in the specification. -/
def riceInput : ListingInput :=
  { foodName := "Rice"
    quantity := 10
    expiryDate := "2025-01-01"
    providerId := 1
    providerType := "Restaurant"
    location := "X"
    foodType := "Grain"
    mealType := "Lunch" }

/-- A listing row as seeded from the CSV, with `Food_ID` 1. -/
def breadRow : FoodListing :=
  { foodId := some 1
    foodName := "Bread"
    quantity := 5
    expiryDate := "2025-02-02"
    providerId := 2
    providerType := "Bakery"
    location := "Y"
    foodType := "Bakery"
    mealType := "Breakfast" }

/-- A second seeded listing row, with `Food_ID` 2. -/
def soupRow : FoodListing :=
  { foodId := some 2
    foodName := "Soup"
    quantity := 3
    expiryDate := "2025-03-03"
    providerId := 4
    providerType := "Canteen"
    location := "Z"
    foodType := "Vegetable"
    mealType := "Dinner" }

/-- A table state as seeded from the CSV: one listing. -/
def seededTable : List FoodListing :=
  [breadRow]

/-- A table state with two seeded listings. -/
def demoTable : List FoodListing :=
  [breadRow, soupRow]

/-- C1: the Add Listing flow names only the eight caller-supplied columns,
and the store assigns the new row NO `Food_ID` at all: the column defaults
to NULL because `to_sql` created the table without a key or default clause.
After one insert the new row carries `none`; after a second insert both new
rows carry `none`, so the claimed uniqueness of an assigned identifier
fails.  This contradicts the claim that the store assigns a unique, stable
`Food_ID`. -/
theorem c1_insert_assigns_no_food_id :
    ((addListing seededTable riceInput).map (fun r => r.foodId)
        = [some 1, none])
    ∧ ((addListing (addListing seededTable riceInput) riceInput).map
          (fun r => r.foodId) = [some 1, none, none]) :=
  ⟨rfl, rfl⟩

/-- C2: a row inserted by the Add Listing flow is invisible to the
read-for-edit query for every possible bound `Food_ID` parameter, because
its `Food_ID` is NULL and `Food_ID = ?` never matches NULL.  Hence no
identifier exists with which read-for-edit returns the inserted attribute
values: the round-trip property fails for every inserted listing. -/
theorem c2_inserted_row_invisible_to_read (t : List FoodListing)
    (v : ListingInput) (fid : Int) :
    selectById (addListing t v) fid = selectById t fid := by
  simp [selectById, addListing, sqlIdMatches]

/-- C3 counterexample: on the error path neither `run_query` nor
`run_action` closes the connection before the exception propagates, so the
claim that the connection is closed on every exit path is false at the
concrete input of a statement that raises. -/
theorem c3_error_path_leaves_conn_open :
    (run_query (DbResult.err "no such table: food_listings")).connClosed
        = false
    ∧ (run_action (DbResult.err "no such table: food_listings")).connClosed
        = false :=
  ⟨rfl, rfl⟩

/-- C3 (amended): the connection opened by `run_query` or `run_action` is
closed before the call returns on the normal path; when the executed
statement raises, the error propagates to the caller unchanged and the
close is skipped. -/
theorem c3_conn_lifecycle :
    (∀ rows, run_query (DbResult.ok rows)
        = { result := DbResult.ok rows, connClosed := true })
    ∧ (∀ u, run_action (DbResult.ok u)
        = { result := DbResult.ok u, connClosed := true })
    ∧ (∀ e, run_query (DbResult.err e)
        = { result := DbResult.err e, connClosed := false })
    ∧ (∀ e, run_action (DbResult.err e)
        = { result := DbResult.err e, connClosed := false }) :=
  ⟨fun _ => rfl, fun _ => rfl, fun _ => rfl, fun _ => rfl⟩

/-- C5: deleting a `Food_ID` that matches no row leaves the table
unchanged (silent no-op, no error); deleting twice with the same
identifier equals deleting once (the second delete is always a no-op); and
read-for-edit after a delete of that identifier returns no row. -/
theorem c5_delete_no_op (t : List FoodListing) (fid : Int) :
    ((∀ r ∈ t, sqlIdMatches r.foodId fid = false) → deleteListing t fid = t)
    ∧ deleteListing (deleteListing t fid) fid = deleteListing t fid
    ∧ selectById (deleteListing t fid) fid = [] := by
  refine ⟨fun h => ?_, ?_, ?_⟩
  · exact List.filter_eq_self.2 (fun r hr => by simp [h r hr])
  · exact List.filter_eq_self.2 (fun r hr => (List.mem_filter.1 hr).2)
  · simp only [selectById, deleteListing, List.filter_filter]
    exact List.filter_eq_nil_iff.2 (fun r _ => by cases sqlIdMatches r.foodId fid <;> simp)

/-- Witness for C5 at a concrete table and absent identifier 99. -/
theorem c5_delete_no_op_witness :
    deleteListing seededTable 99 = seededTable
    ∧ deleteListing (deleteListing seededTable 99) 99
        = deleteListing seededTable 99
    ∧ selectById (deleteListing seededTable 99) 99 = [] := by
  have h := c5_delete_no_op seededTable 99
  exact ⟨h.1 (by decide), h.2.1, h.2.2⟩

/-- C6: the Update statement is idempotent: applying the same full-record
update twice leaves the table exactly as applying it once. -/
theorem c6_update_idempotent (t : List FoodListing) (fid : Int)
    (v : ListingInput) :
    updateListing (updateListing t fid v) fid v = updateListing t fid v := by
  simp only [updateListing, List.map_map]
  refine List.map_congr_left (fun r _ => ?_)
  by_cases h : sqlIdMatches r.foodId fid
  · simp [Function.comp, h, applyUpdate]
  · simp [Function.comp, h]

/-- C7: an update targeting `Food_ID = fid` overwrites, in every row the
`WHERE` clause matches, all eight mutable columns with the supplied values
while the `Food_ID` of that row keeps its value `some fid`; every row the
clause does not match (a different identifier, or NULL) is unchanged, and
no row is added or removed. -/
theorem c7_update_frame (t : List FoodListing) (fid : Int) (v : ListingInput)
    (i : Nat) (r : FoodListing) (hr : t[i]? = some r) :
    (updateListing t fid v).length = t.length
    ∧ (sqlIdMatches r.foodId fid = true →
        r.foodId = some fid
        ∧ (updateListing t fid v)[i]? = some
            { foodId := some fid
              foodName := v.foodName
              quantity := v.quantity
              expiryDate := v.expiryDate
              providerId := v.providerId
              providerType := v.providerType
              location := v.location
              foodType := v.foodType
              mealType := v.mealType })
    ∧ (sqlIdMatches r.foodId fid = false →
        (updateListing t fid v)[i]? = some r) := by
  refine ⟨by simp [updateListing], fun h => ?_, fun h => ?_⟩
  · have hid : r.foodId = some fid := by
      cases hfood : r.foodId with
      | none => simp [sqlIdMatches, hfood] at h
      | some x =>
          simp [sqlIdMatches, hfood, decide_eq_true_eq] at h
          simp [hfood, h]
    refine ⟨hid, ?_⟩
    simp [updateListing, List.getElem?_map, hr, h, applyUpdate, hid, sqlIdMatches]
  · simp [updateListing, List.getElem?_map, hr, h]

/-- Witness for C7: updating identifier 1 in the two-row table leaves the
row with identifier 2 unchanged and preserves the row count. -/
theorem c7_update_frame_witness :
    (updateListing demoTable 1 riceInput).length = demoTable.length
    ∧ (updateListing demoTable 1 riceInput)[1]? = some soupRow := by
  have h := c7_update_frame demoTable 1 riceInput 1 soupRow (by decide)
  exact ⟨h.1, h.2.2 (by decide)⟩

/-- C10: a read whose result set is empty makes `run_query` return an
empty table with the connection closed, not an error. -/
theorem c10_zero_rows_empty_table (t : List FoodListing) (fid : Int)
    (h : selectById t fid = []) :
    run_query (DbResult.ok (selectById t fid))
      = { result := DbResult.ok [], connClosed := true } := by
  simp [run_query, h]

/-- Witness for C10 at a concrete table and unmatched identifier. -/
theorem c10_zero_rows_empty_table_witness :
    run_query (DbResult.ok (selectById seededTable 99))
      = { result := DbResult.ok [], connClosed := true } :=
  c10_zero_rows_empty_table seededTable 99 (by decide)

/-- A row of the `claims` table (seeded read-only; §3 of the spec). -/
structure ClaimRow where
  claimId : Int
  foodId : Int
  receiverId : Int
  status : String
  timestamp : String
deriving Repr, DecidableEq

/-- SQLite `ROUND(x, 2)`: rounding to two decimal places.  For the
nonnegative arguments produced by the claim-status query this is rounding
half away from zero, modelled as ordinary rounding of `100 * x` divided by
100; exact rational arithmetic stands in for SQLite REAL arithmetic. -/
def round2 (x : ℚ) : ℚ := ((round (x * 100) : ℤ) : ℚ) / 100

/-- A result row of the claim-status report. -/
structure StatusRow where
  status : String
  countStatus : Nat
  percentage : ℚ
deriving Repr, DecidableEq

/-- Analytics query q10 (app.py lines 115-120):
`SELECT Status, COUNT(*), ROUND(100.0*COUNT(*)/(SELECT COUNT(*) FROM
claims),2) FROM claims GROUP BY Status`.  GROUP BY yields one row per
distinct Status value; the statement has no ORDER BY, so the row order is
unspecified and modelled as the dedup order of the Status column. -/
def q10 (cs : List ClaimRow) : List StatusRow :=
  ((cs.map (fun c => c.status)).dedup).map (fun s =>
    { status := s
      countStatus := (cs.map (fun c => c.status)).count s
      percentage := round2 (100 * ((cs.map (fun c => c.status)).count s : ℚ)
          / (cs.length : ℚ)) })

/-- Rounding to two decimals moves a rational by at most 1/200. -/
theorem abs_round2_sub (x : ℚ) : |round2 x - x| ≤ 1 / 200 := by
  have h : |x * 100 - ((round (x * 100) : ℤ) : ℚ)| ≤ 1 / 2 :=
    abs_sub_round (x * 100)
  rw [abs_sub_comm] at h
  have h2 : round2 x - x = (((round (x * 100) : ℤ) : ℚ) - x * 100) / 100 := by
    unfold round2; ring
  rw [h2, abs_div, abs_of_pos (by norm_num : (0:ℚ) < 100)]
  linarith

/-- Summing values rounded to two decimals drifts from the true sum by at
most 1/200 per summand. -/
theorem abs_sum_map_round2_sub (l : List ℚ) :
    |(l.map round2).sum - l.sum| ≤ (l.length : ℚ) / 200 := by
  induction l with
  | nil => simp
  | cons a l ih =>
      simp only [List.map_cons, List.sum_cons, List.length_cons]
      have ha := abs_round2_sub a
      have habs : |round2 a + (l.map round2).sum - (a + l.sum)|
          ≤ |round2 a - a| + |(l.map round2).sum - l.sum| := by
        have := abs_add (round2 a - a) ((l.map round2).sum - l.sum)
        calc |round2 a + (l.map round2).sum - (a + l.sum)|
            = |(round2 a - a) + ((l.map round2).sum - l.sum)| := by ring_nf
          _ ≤ |round2 a - a| + |(l.map round2).sum - l.sum| := this
      have hlen : ((l.length + 1 : ℕ) : ℚ) = (l.length : ℚ) + 1 := by
        push_cast
        ring
      rw [hlen]
      calc |round2 a + (l.map round2).sum - (a + l.sum)|
          ≤ |round2 a - a| + |(l.map round2).sum - l.sum| := habs
        _ ≤ 1 / 200 + (l.length : ℚ) / 200 := add_le_add ha ih
        _ = ((l.length : ℚ) + 1) / 200 := by ring

/-- C4: each row of the claim-status report carries the count of its
status group and that count as a percentage of all claims rounded to two
decimals; over a non-empty claims table the reported percentages sum to
100 up to the accumulated rounding error (at most 1/200 per group). -/
theorem c4_claim_status_distribution (cs : List ClaimRow) (h : cs ≠ []) :
    (∀ row ∈ q10 cs,
        row.countStatus = (cs.map (fun c => c.status)).count row.status
        ∧ row.percentage
            = round2 (100 * (row.countStatus : ℚ) / (cs.length : ℚ)))
    ∧ |((q10 cs).map (fun row => row.percentage)).sum - 100|
        ≤ ((q10 cs).length : ℚ) / 200 := by
  constructor
  · intro row hrow
    obtain ⟨s, hs, rfl⟩ := List.mem_map.1 hrow
    exact ⟨rfl, rfl⟩
  · have htotal : (0 : ℚ) < (cs.length : ℚ) := by
      have : 0 < cs.length := List.length_pos.2 h
      exact_mod_cast this
    set ss := cs.map (fun c => c.status) with hss
    set p : String → ℚ :=
      fun s => 100 * ((ss.count s : ℚ)) / (cs.length : ℚ) with hp
    have hmap : (q10 cs).map (fun row => row.percentage)
        = (ss.dedup.map p).map round2 := by
      simp only [q10, List.map_map]
      rfl
    have hsum : (ss.dedup.map p).sum = 100 := by
      have h1 : ss.dedup.map p
          = ss.dedup.map (fun s => (100 / (cs.length : ℚ)) * ((ss.count s : ℚ))) := by
        refine List.map_congr_left (fun s _ => ?_)
        rw [hp]
        ring
      rw [h1, List.sum_map_mul_left]
      have h2 : (ss.dedup.map (fun s => ((ss.count s : ℚ)))).sum
          = ((ss.dedup.map (fun s => ss.count s)).sum : ℚ) := by
        rw [Nat.cast_list_sum, List.map_map]
        rfl
      rw [h2, List.sum_map_count_dedup_eq_length]
      have hlen : (ss.length : ℚ) = (cs.length : ℚ) := by
        rw [hss]
        simp
      rw [hlen, div_mul_cancel₀]
      exact ne_of_gt htotal
    have hlen2 : (q10 cs).length = (ss.dedup.map p).length := by
      simp [q10]
    rw [hmap, hlen2, ← hsum]
    exact abs_sum_map_round2_sub (ss.dedup.map p)

/-- A concrete claims table: three claims, two Completed and one Pending. -/
def demoClaims : List ClaimRow :=
  [{ claimId := 1, foodId := 1, receiverId := 1, status := "Completed",
     timestamp := "2025-01-01 10:00" },
   { claimId := 2, foodId := 2, receiverId := 2, status := "Pending",
     timestamp := "2025-01-02 11:00" },
   { claimId := 3, foodId := 1, receiverId := 3, status := "Completed",
     timestamp := "2025-01-03 12:00" }]

/-- Witness for C4 at the concrete three-claim table. -/
theorem c4_claim_status_distribution_witness :
    |((q10 demoClaims).map (fun row => row.percentage)).sum - 100|
      ≤ ((q10 demoClaims).length : ℚ) / 200 :=
  (c4_claim_status_distribution demoClaims (by decide)).2

/-- A result row of the food-type frequency report. -/
structure FoodTypeRow where
  foodType : String
  countListings : Nat
deriving Repr, DecidableEq

/-- Analytics query q7 (app.py lines 106-111):
`SELECT Food_Type, COUNT(*) FROM food_listings GROUP BY Food_Type
ORDER BY Count_Listings DESC`.  GROUP BY yields one row per distinct
Food_Type value; the rows are then sorted by count descending. -/
def q7 (t : List FoodListing) : List FoodTypeRow :=
  (((t.map (fun r => r.foodType)).dedup).map (fun ft =>
    { foodType := ft
      countListings := (t.map (fun r => r.foodType)).count ft }))
    |>.mergeSort (fun a b => decide (b.countListings ≤ a.countListings))

/-- C8: the food-type report is ordered by count descending, has exactly
one row per distinct Food_Type value present, and its counts sum to the
total number of listings. -/
theorem c8_food_type_frequency (t : List FoodListing) :
    (q7 t).Pairwise (fun a b => b.countListings ≤ a.countListings)
    ∧ (q7 t).length = (t.map (fun r => r.foodType)).toFinset.card
    ∧ ((q7 t).map (fun row => row.countListings)).sum = t.length := by
  set rows := ((t.map (fun r => r.foodType)).dedup).map (fun ft =>
    ({ foodType := ft
       countListings := (t.map (fun r => r.foodType)).count ft } :
        FoodTypeRow)) with hrows
  have hperm : List.Perm (q7 t) rows :=
    List.mergeSort_perm rows (fun a b => decide (b.countListings ≤ a.countListings))
  refine ⟨?_, ?_, ?_⟩
  · have hs := @List.sorted_mergeSort FoodTypeRow
      (fun a b => decide (b.countListings ≤ a.countListings))
      (fun a b c h1 h2 => by
        simp only [decide_eq_true_eq] at h1 h2 ⊢
        omega)
      (fun a b => by
        rcases Nat.le_total b.countListings a.countListings with h | h <;>
          simp [h])
      rows
    exact hs.imp (fun hab => of_decide_eq_true hab)
  · rw [hperm.length_eq, hrows, List.length_map, List.card_toFinset]
  · have hmapperm := hperm.map (fun row => row.countListings)
    rw [hmapperm.sum_eq, hrows, List.map_map]
    have : ((t.map (fun r => r.foodType)).dedup.map
        ((fun row : FoodTypeRow => row.countListings) ∘ (fun ft =>
          ({ foodType := ft
             countListings := (t.map (fun r => r.foodType)).count ft } :
              FoodTypeRow)))).sum
        = ((t.map (fun r => r.foodType)).dedup.map
            (fun x => (t.map (fun r => r.foodType)).count x)).sum := rfl
    rw [this, List.sum_map_count_dedup_eq_length, List.length_map]

/-- A row of the `providers` table; the CSV column named Type is rendered
`ptype` because Type is reserved in Lean. -/
structure Provider where
  providerId : Int
  name : String
  ptype : String
  city : String
  contact : String
deriving Repr, DecidableEq

/-- A row of the `receivers` table. -/
structure Receiver where
  receiverId : Int
  rname : String
  rtype : String
  city : String
  contact : String
deriving Repr, DecidableEq

/-- A result row of the city coverage report. -/
structure CityRow where
  city : String
  providers : Nat
  receivers : Nat
deriving Repr, DecidableEq

/-- Inner UNION ALL of analytics query q1 (app.py lines 96-98): per-city
provider counts paired with a zero receivers column, followed by per-city
receiver counts paired with a zero providers column. -/
def q1Inner (ps : List Provider) (rs : List Receiver) :
    List (String × Nat × Nat) :=
  (((ps.map (fun p => p.city)).dedup).map (fun c =>
      (c, (ps.map (fun p => p.city)).count c, 0)))
    ++ (((rs.map (fun r => r.city)).dedup).map (fun c =>
      (c, 0, (rs.map (fun r => r.city)).count c)))

/-- Analytics query q1 (app.py lines 91-101): the UNION ALL above grouped
by City with SUM over both count columns, ordered by City ascending. -/
def q1 (ps : List Provider) (rs : List Receiver) : List CityRow :=
  ((((q1Inner ps rs).map (fun row => row.1)).dedup).map (fun c =>
    { city := c
      providers := (((q1Inner ps rs).filter (fun row => row.1 = c)).map
          (fun row => row.2.1)).sum
      receivers := (((q1Inner ps rs).filter (fun row => row.1 = c)).map
          (fun row => row.2.2)).sum }))
    |>.mergeSort (fun a b => decide (a.city ≤ b.city))

/-- Summing one numeric component of keyed rows kept by a filter on the
key: when the keys are pairwise distinct, the sum collapses to the single
matching row, or to zero when the key is absent. -/
theorem sum_proj_filter_map (f : String → String × Nat × Nat)
    (proj : String × Nat × Nat → Nat) (hf : ∀ c, (f c).1 = c) (c : String) :
    ∀ l : List String, l.Nodup →
      (((l.map f).filter (fun row => row.1 = c)).map proj).sum
        = if c ∈ l then proj (f c) else 0
  | [], _ => by simp
  | a :: l, hnd => by
      obtain ⟨ha, hl⟩ := List.nodup_cons.1 hnd
      have ih := sum_proj_filter_map f proj hf c l hl
      by_cases hac : a = c
      · subst hac
        simp [List.filter_cons, hf, ih, ha]
      · have hca : ¬c = a := fun h => hac h.symm
        simp [List.filter_cons, hf, hac, hca, ih]

/-- The providers column summed by the outer GROUP BY equals the number of
providers located in that city. -/
theorem q1_providers_sum (ps : List Provider) (rs : List Receiver)
    (c : String) :
    (((q1Inner ps rs).filter (fun row => row.1 = c)).map
        (fun row => row.2.1)).sum
      = (ps.map (fun p => p.city)).count c := by
  unfold q1Inner
  rw [List.filter_append, List.map_append, List.sum_append,
    sum_proj_filter_map _ _ (fun x => rfl) c _
      (List.nodup_dedup (ps.map (fun p => p.city))),
    sum_proj_filter_map _ _ (fun x => rfl) c _
      (List.nodup_dedup (rs.map (fun r => r.city)))]
  simp only [List.mem_dedup, ite_self, add_zero]
  by_cases hc : c ∈ ps.map (fun p => p.city)
  · simp [hc]
  · simp [hc, List.count_eq_zero.2 hc]

/-- The receivers column summed by the outer GROUP BY equals the number of
receivers located in that city. -/
theorem q1_receivers_sum (ps : List Provider) (rs : List Receiver)
    (c : String) :
    (((q1Inner ps rs).filter (fun row => row.1 = c)).map
        (fun row => row.2.2)).sum
      = (rs.map (fun r => r.city)).count c := by
  unfold q1Inner
  rw [List.filter_append, List.map_append, List.sum_append,
    sum_proj_filter_map _ _ (fun x => rfl) c _
      (List.nodup_dedup (ps.map (fun p => p.city))),
    sum_proj_filter_map _ _ (fun x => rfl) c _
      (List.nodup_dedup (rs.map (fun r => r.city)))]
  simp only [List.mem_dedup, ite_self, zero_add]
  by_cases hc : c ∈ rs.map (fun r => r.city)
  · simp [hc]
  · simp [hc, List.count_eq_zero.2 hc]

/-- C9: every row of the city coverage report carries the provider count
and the receiver count of its city (zero where that city is absent from
one side); the report has a row exactly for each city appearing in either
table; and the rows are ordered by city name ascending. -/
theorem c9_city_coverage (ps : List Provider) (rs : List Receiver) :
    (∀ row ∈ q1 ps rs,
        row.providers = (ps.map (fun p => p.city)).count row.city
        ∧ row.receivers = (rs.map (fun r => r.city)).count row.city)
    ∧ (∀ c : String,
        (∃ row ∈ q1 ps rs, row.city = c)
          ↔ (c ∈ ps.map (fun p => p.city) ∨ c ∈ rs.map (fun r => r.city)))
    ∧ (q1 ps rs).Pairwise (fun a b => a.city ≤ b.city) := by
  refine ⟨?_, ?_, ?_⟩
  · intro row hrow
    rw [q1, List.mem_mergeSort] at hrow
    obtain ⟨c, hc, rfl⟩ := List.mem_map.1 hrow
    exact ⟨q1_providers_sum ps rs c, q1_receivers_sum ps rs c⟩
  · intro c
    constructor
    · rintro ⟨row, hrow, rfl⟩
      rw [q1, List.mem_mergeSort] at hrow
      obtain ⟨c', hc', rfl⟩ := List.mem_map.1 hrow
      rw [List.mem_dedup] at hc'
      rcases List.mem_map.1 hc' with ⟨inrow, hin, rfl⟩
      rw [q1Inner, List.mem_append] at hin
      rcases hin with hin | hin
      · obtain ⟨c0, hc0, rfl⟩ := List.mem_map.1 hin
        exact Or.inl (List.mem_dedup.1 hc0)
      · obtain ⟨c0, hc0, rfl⟩ := List.mem_map.1 hin
        exact Or.inr (List.mem_dedup.1 hc0)
    · intro hc
      have hcin : c ∈ (q1Inner ps rs).map (fun row => row.1) := by
        rw [q1Inner, List.map_append, List.mem_append, List.map_map,
          List.map_map]
        rcases hc with hc | hc
        · exact Or.inl (by
            simpa using List.mem_dedup.2 hc)
        · exact Or.inr (by
            simpa using List.mem_dedup.2 hc)
      refine ⟨{ city := c
                providers := (((q1Inner ps rs).filter
                    (fun row => row.1 = c)).map (fun row => row.2.1)).sum
                receivers := (((q1Inner ps rs).filter
                    (fun row => row.1 = c)).map (fun row => row.2.2)).sum },
        ?_, rfl⟩
      rw [q1, List.mem_mergeSort]
      exact List.mem_map.2 ⟨c, List.mem_dedup.2 hcin, rfl⟩
  · have hs := @List.sorted_mergeSort CityRow
      (fun a b => decide (a.city ≤ b.city))
      (fun a b c h1 h2 => by
        simp only [decide_eq_true_eq] at h1 h2 ⊢
        exact le_trans h1 h2)
      (fun a b => by
        rcases le_total a.city b.city with h | h <;> simp [h])
      ((((q1Inner ps rs).map (fun row => row.1)).dedup).map (fun c =>
        { city := c
          providers := (((q1Inner ps rs).filter (fun row => row.1 = c)).map
              (fun row => row.2.1)).sum
          receivers := (((q1Inner ps rs).filter (fun row => row.1 = c)).map
              (fun row => row.2.2)).sum }))
    exact hs.imp (fun hab => of_decide_eq_true hab)

/-- A concrete providers table: one provider in city A. -/
def demoProviders : List Provider :=
  [{ providerId := 1, name := "P1", ptype := "Restaurant",
     city := "Acity", contact := "111" }]

/-- A concrete receivers table: one receiver in city B. -/
def demoReceivers : List Receiver :=
  [{ receiverId := 1, rname := "R1", rtype := "NGO",
     city := "Bcity", contact := "222" }]

/-- The city coverage row for city A over the demo tables. -/
def cityRowA : CityRow :=
  { city := "Acity", providers := 1, receivers := 0 }

/-- Witness for C9 at concrete one-provider and one-receiver tables. -/
theorem c9_city_coverage_witness :
    (cityRowA.providers
        = (demoProviders.map (fun p => p.city)).count cityRowA.city
      ∧ cityRowA.receivers
        = (demoReceivers.map (fun r => r.city)).count cityRowA.city)
    ∧ (q1 demoProviders demoReceivers).Pairwise
        (fun a b => a.city ≤ b.city) := by
  have h := c9_city_coverage demoProviders demoReceivers
  refine ⟨h.1 cityRowA ?_, h.2.2⟩
  rw [q1, List.mem_mergeSort]
  decide

end FoodWaste
